import Mathlib

set_option maxRecDepth 100000

/-!
Verification development for the OpenPyCR thermal-cycler controller.

The Python sources are shallowly embedded: Python `str` values become
`List Char`, Python `bytes` become `List Nat`, and code that can raise an
exception returns `Except PyErr`.  Every definition below is translated from
`src/PCRCompiler.py` or `src/openpcrlib.py`; the one exception is the derived
`active` flag, which is referenced by the CLI (`openpycr.py`, `device.active`)
but defined nowhere in the sources, and is therefore modelled from the spec
(see `activeFlag`).
-/

namespace OpenPyCR

/-- Python strings are modelled as lists of characters. -/
abbrev PyStr := List Char

/-- Python byte strings are modelled as lists of byte values. -/
abbrev PyBytes := List Nat

/-- Exceptions the embedded code can raise.  `exception` models the explicit
`raise Exception(...)` statements of the source, carrying the (Lean-side)
message text and, when the source formats one in, the offending line number.
`valueError`, `indexError` and `typeError` model the corresponding Python
built-in exceptions raised implicitly by unpacking, indexing and mixing
`bytes` with `str`; `ioError` models `raise IOError(...)`. -/
inductive PyErr where
  | exception (msg : String) (lineNo : Option Nat)
  | valueError
  | indexError
  | typeError
  | ioError (msg : String)
deriving DecidableEq

instance {ε α : Type} [DecidableEq ε] [DecidableEq α] : DecidableEq (Except ε α) := fun a b =>
  match a, b with
  | Except.ok x, Except.ok y =>
    if h : x = y then isTrue (by rw [h])
    else isFalse (fun hh => h (Except.ok.inj hh))
  | Except.error x, Except.error y =>
    if h : x = y then isTrue (by rw [h])
    else isFalse (fun hh => h (Except.error.inj hh))
  | Except.ok _, Except.error _ => isFalse (fun hh => Except.noConfusion hh)
  | Except.error _, Except.ok _ => isFalse (fun hh => Except.noConfusion hh)

/-- Boolean success test for `Except`, mirroring "the call did not raise". -/
def isOkE : Except ε α → Bool
  | Except.ok _ => true
  | Except.error _ => false

/-- Characters stripped by Python `str.strip()` with no argument. -/
def isPySpace (c : Char) : Bool :=
  c == ' ' || c == '\t' || c == '\n' || c == '\r' || c == '\x0b' || c == '\x0c'

/-- Python `str.lstrip(chars)`: drop leading characters satisfying `p`. -/
def pyLStrip (p : Char → Bool) : PyStr → PyStr
  | [] => []
  | c :: cs => if p c then pyLStrip p cs else c :: cs

/-- Python `str.rstrip(chars)`: drop trailing characters satisfying `p`. -/
def pyRStrip (p : Char → Bool) (s : PyStr) : PyStr :=
  (pyLStrip p s.reverse).reverse

/-- Python `str.strip(chars)`: drop characters satisfying `p` from both ends. -/
def pyStrip (p : Char → Bool) (s : PyStr) : PyStr :=
  pyRStrip p (pyLStrip p s)

/-- Python `str.lower()` (the sources only ever lowercase ASCII). -/
def pyLower (s : PyStr) : PyStr :=
  s.map Char.toLower

/-- Python `s.split(sep)` for a one-element separator: split at every
occurrence, keeping empty pieces (so the result is never empty). -/
def pySplit1 [BEq α] (sep : α) : List α → List (List α)
  | [] => [[]]
  | c :: cs =>
    let r := pySplit1 sep cs
    if c == sep then [] :: r
    else
      match r with
      | [] => [[c]]
      | h :: t => (c :: h) :: t

/-- Index of the first occurrence of the substring `sep` in `s`
(Python `str.find` / the search behind `str.split(sep, 1)`). -/
def findSubstring (sep : PyStr) : PyStr → Option Nat
  | [] => if sep.isEmpty then some 0 else none
  | c :: cs =>
    if List.isPrefixOf sep (c :: cs) then some 0
    else (findSubstring sep cs).map (· + 1)

/-- Python `s.split(sep, 1)`: split at the first occurrence of `sep` only.
Returns `none` when `sep` does not occur (Python then returns a one-element
list, which makes the two-variable unpackings in the source raise). -/
def pySplitOnce (sep : PyStr) (s : PyStr) : Option (PyStr × PyStr) :=
  match findSubstring sep s with
  | none => none
  | some i => some (s.take i, s.drop (i + sep.length))

/-- Python `str.splitlines()` for newline-separated text: like splitting on
a newline character, except that an empty string gives no lines and a
trailing newline does not produce a trailing empty line. -/
def pySplitlines (s : PyStr) : List PyStr :=
  if s.isEmpty then []
  else if s.getLast? == some '\n' then (pySplit1 '\n' s).dropLast
  else pySplit1 '\n' s

/-- Python `s.split(None, 1)`: skip leading whitespace, take the first
whitespace-delimited token, and return the remainder with its leading
whitespace removed; at most two pieces, and no empty pieces. -/
def pySplitWsOnce (s : PyStr) : List PyStr :=
  let s1 := pyLStrip isPySpace s
  match s1 with
  | [] => []
  | _ =>
    let tok := s1.takeWhile (fun c => !(isPySpace c))
    let rest := pyLStrip isPySpace (s1.dropWhile (fun c => !(isPySpace c)))
    if rest.isEmpty then [tok] else [tok, rest]

/-- Numeric value of a decimal digit character. -/
def digitVal (c : Char) : Option Nat :=
  if '0' ≤ c ∧ c ≤ '9' then some (c.toNat - '0'.toNat) else none

/-- Parse a non-empty all-digit string as a natural number. -/
def parseNatDigits (s : PyStr) : Option Nat :=
  if s.isEmpty then none
  else
    s.foldl
      (fun acc c =>
        match acc with
        | none => none
        | some a =>
          match digitVal c with
          | none => none
          | some d => some (a * 10 + d))
      (some 0)

/-- Python `int(str)`: strip whitespace, optional sign, then decimal digits.
`none` models the `ValueError` that `int` raises on anything else. -/
def pyInt (s : PyStr) : Option Int :=
  let t := pyStrip isPySpace s
  match t with
  | '+' :: rest => (parseNatDigits rest).map Int.ofNat
  | '-' :: rest => (parseNatDigits rest).map (fun n => -(Int.ofNat n))
  | _ => (parseNatDigits t).map Int.ofNat

/-- Unsigned decimal literal with an optional fractional part, as accepted by
Python `float(str)` for the plain decimal forms the sources use.  The value is
kept exact as a rational: every temperature handled by the code is a short
decimal, for which parse-then-print behaves exactly like Python floats. -/
def pyFloatBody (s : PyStr) : Option Rat :=
  match findSubstring ['.'] s with
  | none => (parseNatDigits s).map (fun n => (n : Rat))
  | some i =>
    let ip := s.take i
    let fp := s.drop (i + 1)
    if ip.isEmpty && fp.isEmpty then none
    else
      match (if ip.isEmpty then some 0 else parseNatDigits ip),
            (if fp.isEmpty then some 0 else parseNatDigits fp) with
      | some a, some b => some ((a : Rat) + (b : Rat) / ((10 : Rat) ^ fp.length))
      | _, _ => none

/-- Python `float(str)` for plain decimal literals: whitespace, optional sign,
digits with an optional decimal point. -/
def pyFloat (s : PyStr) : Option Rat :=
  let t := pyStrip isPySpace s
  match t with
  | '+' :: rest => pyFloatBody rest
  | '-' :: rest => (pyFloatBody rest).map (fun q => -q)
  | _ => pyFloatBody t

/-- Decimal digits of an integer, as printed by Python `str(int)`. -/
def intRepr (i : Int) : PyStr :=
  if i < 0 then '-' :: Nat.toDigits 10 i.natAbs else Nat.toDigits 10 i.natAbs

/-- Pad a digit string on the left with zeros up to width `k`. -/
def padLeftZeros (k : Nat) (s : PyStr) : PyStr :=
  List.replicate (k - s.length) '0' ++ s

/-- Decimal rendering of a rational whose denominator divides a power of ten
(every value produced by `pyFloat`), matching Python `str(float)` on the short
decimals this program handles.  Rationals outside that set fall back to a
fraction rendering; they cannot arise from parsed input. -/
def ratRepr (q : Rat) : PyStr :=
  let sign : PyStr := if q.num < 0 then ['-'] else []
  let n := q.num.natAbs
  let d := q.den
  match (List.range (d + 1)).find? (fun k => 10 ^ k % d == 0) with
  | some k =>
    let scaled := n * 10 ^ k / d
    let ip := scaled / 10 ^ k
    let fp := scaled % 10 ^ k
    sign ++ Nat.toDigits 10 ip ++ ['.'] ++ padLeftZeros k (Nat.toDigits 10 fp)
  | none => sign ++ Nat.toDigits 10 n ++ ['/'] ++ Nat.toDigits 10 d

/-- Rendering of a parsed temperature: the compiler stores it as a Python
`int` when it has no fractional part (see `parse_step_line`), so integral
values print as integers and the rest as decimals. -/
def tempRepr (q : Rat) : PyStr :=
  if q.den = 1 then intRepr q.num else ratRepr q

/-- Python `sep.join(pieces)`. -/
def joinWith (sep : PyStr) (ls : List PyStr) : PyStr :=
  (List.intersperse sep ls).flatten

/-- Python `list.insert(n, x)` (clamping at the ends, as `insert` does). -/
def pyInsert (n : Nat) (x : α) (l : List α) : List α :=
  l.take n ++ x :: l.drop n

/-- Python `del list[j]`. -/
def pyDel (j : Nat) (l : List α) : List α :=
  l.take j ++ l.drop (j + 1)

/-- Run a fallible function over a list, stopping at the first raised
exception — the behaviour of a Python list comprehension over a fallible
expression. -/
def mapExcept (f : α → Except ε β) : List α → Except ε (List β)
  | [] => Except.ok []
  | x :: xs =>
    match f x with
    | Except.error e => Except.error e
    | Except.ok y =>
      match mapExcept f xs with
      | Except.error e => Except.error e
      | Except.ok ys => Except.ok (y :: ys)

/-- Fold a fallible step function over a list, stopping at the first raised
exception — the behaviour of a Python `for` loop whose body may raise. -/
def foldExcept (f : σ → α → Except ε σ) : σ → List α → Except ε σ
  | s, [] => Except.ok s
  | s, x :: xs =>
    match f s x with
    | Except.error e => Except.error e
    | Except.ok s2 => foldExcept f s2 xs

/-- Python `dict` built from key/value pairs with lookup default: later pairs
overwrite earlier ones, so lookup finds the last matching pair. -/
def dGet (pairs : List (PyStr × PyStr)) (k : PyStr) : Option PyStr :=
  match pairs.reverse.find? (fun p => p.1 == k) with
  | some p => some p.2
  | none => none

/-!
The program compiler, from `src/PCRCompiler.py`.
-/

/-- One timed, temperature-held phase of a thermal program
(`PCRStep` in `PCRCompiler.py`).  The temperature is exact (see `pyFloat`);
the source stores it as an `int` when integral, which here only affects
rendering (`tempRepr`). -/
structure PCRStep where
  seconds : Int
  temperature : Rat
  title : PyStr
deriving DecidableEq

/-- The first constructor argument of `PCRCycle` is dynamically typed in
Python: the intended repetition count is an `int`, but the solitary-line
branch of `parse_program` (line 179) passes a `PCRStep` instead. -/
inductive RepsVal where
  | int (n : Int)
  | step (s : PCRStep)
deriving DecidableEq

/-- A repeated group of steps (`PCRCycle` in `PCRCompiler.py`). -/
structure PCRCycle where
  reps : RepsVal
  steps : List PCRStep
deriving DecidableEq

/-- A full program: cycles, title and lid temperature
(`OpenPCRProgram` in `PCRCompiler.py`). -/
structure OpenPCRProgram where
  cycles : List PCRCycle
  title : PyStr
  lid : Int
deriving DecidableEq

/-- `PCRStep.__str__`: `[<seconds>|<temperature>|<title>]`. -/
def stepStr (s : PCRStep) : PyStr :=
  '[' :: (intRepr s.seconds ++ '|' :: (tempRepr s.temperature ++ '|' :: (s.title ++ [']'])))

/-- Rendering of the dynamically typed repetition value, as `str.format`
would render it: integers print as integers, a `PCRStep` prints via its
`__str__`. -/
def repsStr : RepsVal → PyStr
  | RepsVal.int n => intRepr n
  | RepsVal.step s => stepStr s

/-- `PCRCycle.__str__`: `(<reps><step1><step2>...)`. -/
def cycleStr (c : PCRCycle) : PyStr :=
  '(' :: (repsStr c.reps ++ (c.steps.map stepStr).flatten ++ [')'])

/-- `OpenPCRProgram.__str__`:
`s=ACGTC&l=<lid>&c=start&n=<title>&p=<cycles>`. -/
def progStr (p : OpenPCRProgram) : PyStr :=
  ("s=ACGTC&l=".toList) ++ intRepr p.lid ++ ("&c=start&n=".toList) ++ p.title
    ++ ("&p=".toList) ++ (p.cycles.map cycleStr).flatten

/-- `count_indent` (line 68): counts spaces before the first occurrence of
the first non-space character.  On a string with no non-space character,
`lstrip(" ")[0]` raises `IndexError` — the function is partial on blank
lines. -/
def count_indent (some_str : PyStr) : Except PyErr Nat :=
  match pyLStrip (fun c => c == ' ') some_str with
  | [] => Except.error PyErr.indexError
  | c :: _ =>
    match findSubstring [c] some_str with
    | none => Except.error PyErr.valueError
    | some i => Except.ok (List.countP (fun x => x == ' ') (some_str.take i))

/-- `parse_step_line` (line 72): parse `"XXs @ YYC Description"`.  Both
two-variable unpackings (`split("@")` and `rest.split(None, 1)`) raise
`ValueError` unless they produce exactly two pieces; the out-of-range
temperature raise sits inside the `try`, so its `except` replaces it with the
generic temperature message. -/
def parse_step_line (line0 : PyStr) : Except PyErr PCRStep :=
  let line := pyStrip isPySpace line0
  match (pySplit1 '@' line).map (pyStrip isPySpace) with
  | [seconds0, rest] =>
    if rest.isEmpty then
      Except.error (PyErr.exception
        "At least time and temperature must be specified in a step-defining line" none)
    else
      let seconds1 := pyStrip (fun c => c == 's') (pyLower seconds0)
      match (pySplitWsOnce rest).map (pyStrip isPySpace) with
      | [temperature0, title] =>
        let temperature1 := pyStrip (fun c => c == 'c') (pyLower temperature0)
        match pyInt seconds1 with
        | none =>
          Except.error (PyErr.exception
            "Error: line contains non-permitted character where specifying time" none)
        | some secs =>
          match pyFloat temperature1 with
          | none =>
            Except.error (PyErr.exception
              "Error: Line contains non-permitted character where specifying temperature" none)
          | some t =>
            if t < 0 ∨ t > 99 then
              Except.error (PyErr.exception
                "Error: Line contains non-permitted character where specifying temperature" none)
            else Except.ok { seconds := secs, temperature := t, title := title }
      | _ => Except.error PyErr.valueError
  | _ => Except.error PyErr.valueError

/-- The anchored regular expression `^x[0-9]+:?$` used to recognise
repetition-marker lines. -/
def reps_re_match (line : PyStr) : Bool :=
  match line with
  | 'x' :: rest =>
    !(rest.takeWhile Char.isDigit).isEmpty
      && (rest.dropWhile Char.isDigit == ([] : PyStr)
          || rest.dropWhile Char.isDigit == [':'])
  | _ => false

/-- `value.replace("&","+").replace("=",":")` applied to header values
(line 122): for one-character patterns, `str.replace` is a character map. -/
def sanitize1 (c : Char) : Char :=
  if c = '&' then '+' else c

/-- The second replacement of the header sanitisation. -/
def sanitize2 (c : Char) : Char :=
  if c = '=' then ':' else c

/-- Header-value sanitisation from line 122 of `PCRCompiler.py`. -/
def sanitizeHeader (v : PyStr) : PyStr :=
  (v.map sanitize1).map sanitize2

/-- The mutable loop state of `parse_program`: accumulated cycles, the
1-based line counter, and the pending cycle being assembled. -/
structure ParseState where
  cycles : List PCRCycle
  current_line : Nat
  current_cycle_steps : List PCRStep
  current_cycle_reps : Int
  current_indent : Nat
deriving DecidableEq

/-- Initial loop state of `parse_program` (lines 134-138). -/
def initState : ParseState :=
  { cycles := [], current_line := 0, current_cycle_steps := [],
    current_cycle_reps := 1, current_indent := 0 }

/-- One iteration of the `parse_program` body loop (lines 139-180): the
`if`/`elif` chain on the indent change, followed by the separate top-level
`if indent == current_indent == 0` block.  The second block reads
`current_indent` as updated by the first, exactly as in the source. -/
def processLine (st0 : ParseState) (line : PyStr) : Except PyErr ParseState :=
  let cl := st0.current_line + 1
  let st := { st0 with current_line := cl }
  match count_indent line with
  | Except.error e => Except.error e
  | Except.ok indent =>
    let chainResult : Except PyErr ParseState :=
      if indent < st.current_indent then
        Except.ok { st with
          cycles := st.cycles ++
            [{ reps := RepsVal.int st.current_cycle_reps, steps := st.current_cycle_steps }],
          current_cycle_reps := 1, current_cycle_steps := [], current_indent := indent }
      else if indent > st.current_indent ∧ st.current_indent > 0 then
        Except.error (PyErr.exception
          "Indentation must be consistent within program cycle blocks, and only one depth of indentation is currently supported."
          none)
      else if indent > st.current_indent ∧ st.current_indent = 0 then
        if st.current_cycle_steps ≠ [] then
          Except.error (PyErr.exception
            "Additional steps indented above existing cycle depth" (some cl))
        else
          match parse_step_line line with
          | Except.error e => Except.error e
          | Except.ok stp =>
            Except.ok { st with current_cycle_steps := st.current_cycle_steps ++ [stp],
                                current_indent := indent }
      else if indent = st.current_indent ∧ st.current_indent > 0 then
        match parse_step_line line with
        | Except.error e => Except.error e
        | Except.ok stp =>
          Except.ok { st with current_cycle_steps := st.current_cycle_steps ++ [stp],
                              current_indent := indent }
      else Except.ok st
    match chainResult with
    | Except.error e => Except.error e
    | Except.ok st1 =>
      if indent = st1.current_indent ∧ st1.current_indent = 0 then
        if reps_re_match line then
          if st1.current_cycle_reps ≠ 1 then
            Except.error (PyErr.exception "Repetition value specified twice" (some cl))
          else
            match pyInt (pyStrip (fun c => c == 'x' || c == ':') line) with
            | none => Except.error PyErr.valueError
            | some n =>
              Except.ok { st1 with current_cycle_reps := n, current_indent := indent }
        else
          if st1.current_cycle_reps ≠ 1 then
            Except.error (PyErr.exception
              "Repetition value given and not reset, but unindented (presumed solitary, non-repetitive) instruction found on line"
              (some cl))
          else
            match parse_step_line line with
            | Except.error e => Except.error e
            | Except.ok stp =>
              Except.ok { st1 with
                cycles := st1.cycles ++ [{ reps := RepsVal.step stp, steps := [] }],
                current_indent := indent }
      else Except.ok st1

/-- One header line: `tag, value = [x.strip() for x in line.split(":",1)]`
followed by lowering the tag and sanitising the value (lines 120-122). -/
def parseHeaderLine (line : PyStr) : Except PyErr (PyStr × PyStr) :=
  match pySplitOnce [':'] line with
  | none => Except.error PyErr.valueError
  | some (tag, value) =>
    Except.ok (pyLower (pyStrip isPySpace tag), sanitizeHeader (pyStrip isPySpace value))

/-- The message of the lid-temperature `except` clause (line 131). -/
def lidErrMsg : String :=
  "Lid temperature specified improperly. Must be of form Lid: 95C."

/-- `parse_program` (line 99) up to, but not including, the final call to
`str(...)`: normalise whitespace, split headers from body at the first blank
line, read `Title` and `Lid`, then run the indentation state machine over the
body lines and flush any still-open cycle. -/
def parse_program_core (prog_string : PyStr) : Except PyErr OpenPCRProgram :=
  let normalized :=
    joinWith ['\n'] ((pySplitlines (pyStrip isPySpace prog_string)).map (pyRStrip isPySpace))
  match pySplitOnce ['\n', '\n'] normalized with
  | none => Except.error PyErr.valueError
  | some (prog_headers, prog) =>
    match mapExcept parseHeaderLine (pySplitlines prog_headers) with
    | Except.error e => Except.error e
    | Except.ok headers =>
      let program_title := (dGet headers ("title".toList)).getD []
      let lid_raw := pyRStrip (fun c => c == 'c') (pyLower ((dGet headers ("lid".toList)).getD []))
      match pyInt lid_raw with
      | none => Except.error (PyErr.exception lidErrMsg none)
      | some n =>
        let lid : Int := (n.natAbs : Int)
        if ¬(0 ≤ lid ∧ lid ≤ 99) then Except.error (PyErr.exception lidErrMsg none)
        else
          match foldExcept processLine initState (pySplitlines prog) with
          | Except.error e => Except.error e
          | Except.ok fin =>
            let cycles :=
              if fin.current_cycle_steps ≠ [] then
                fin.cycles ++
                  [{ reps := RepsVal.int fin.current_cycle_reps,
                     steps := fin.current_cycle_steps }]
              else fin.cycles
            Except.ok { cycles := cycles, title := program_title, lid := lid }

/-- `parse_program` (line 99): the compiled program rendered to the device
wire format, as the source returns `str(OpenPCRProgram(...))`. -/
def parse_program (prog_string : PyStr) : Except PyErr PyStr :=
  match parse_program_core prog_string with
  | Except.error e => Except.error e
  | Except.ok p => Except.ok (progStr p)

/-!
The device library, from `src/openpcrlib.py`.
-/

/-- The trimming at the end of `OpenPCR.ncc` (line 187):
`fc.split(b"\0",1)[0]`, the raw `STATUS.TXT` bytes up to the first NUL. -/
def ncc_trim (fc : PyBytes) : PyBytes :=
  fc.takeWhile (fun b => !(b == 0))

/-- The decoded status dictionary built by `OpenPCR.readstatus`
(lines 194-212).  The wall-clock `currenttime` entry reads real time and is
omitted from the embedding. -/
structure StatusRecord where
  state : PyStr
  job : PyStr
  blocktemp : Rat
  lidtemp : Rat
  elapsedsecs : Int
  secsleft : Int
  currentstep : PyStr
  cycle : Int
  program : PyStr
  nonce : Int
  minsleft : Int
  hoursleft : Int
  timeleft : PyStr
deriving DecidableEq

/-- One `x.split("=")` of the dict comprehension on line 193: `dict` accepts
only two-element pair lists, anything else raises `ValueError`. -/
def splitPair (chunk : PyStr) : Except PyErr (PyStr × PyStr) :=
  match pySplit1 '=' chunk with
  | [k, v] => Except.ok (k, v)
  | _ => Except.error PyErr.valueError

/-- `status.get(key, default)` for the string-valued fields. -/
def getStrField (pairs : List (PyStr × PyStr)) (k : PyStr) : PyStr :=
  (dGet pairs k).getD ("Unknown".toList)

/-- `float(status.get(key, 0))`: a missing key gives `float(0)`, a present
key is parsed and an unparseable value raises `ValueError`. -/
def getFloatField (pairs : List (PyStr × PyStr)) (k : PyStr) : Except PyErr Rat :=
  match dGet pairs k with
  | none => Except.ok 0
  | some v =>
    match pyFloat v with
    | none => Except.error PyErr.valueError
    | some q => Except.ok q

/-- `int(status.get(key, dflt))`: a missing key gives the integer default, a
present key is parsed and an unparseable value raises `ValueError`. -/
def getIntField (pairs : List (PyStr × PyStr)) (k : PyStr) (dflt : Int) : Except PyErr Int :=
  match dGet pairs k with
  | none => Except.ok dflt
  | some v =>
    match pyInt v with
    | none => Except.error PyErr.valueError
    | some n => Except.ok n

/-- The message of the missing-nonce `IOError` (line 206). -/
def nonceMissingMsg : String :=
  "Received no program-identifier number from device - failure to communicate/reprogram?"

/-- The status decoding of `OpenPCR.readstatus` from line 193 on, applied to
the status payload as text: split on `&` into `key=value` pairs, read the
single-letter keys with neutral defaults (conversions in the dict-literal
order `b`, `l`, `e`, `r`, `c`, `d` of the source), raise `IOError` when the
nonce is the `-1` sentinel, then derive the time-remaining breakdown. -/
def decode_status (statustxt : PyStr) : Except PyErr StatusRecord :=
  match mapExcept splitPair (pySplit1 '&' statustxt) with
  | Except.error e => Except.error e
  | Except.ok status =>
    match getFloatField status ['b'] with
    | Except.error e => Except.error e
    | Except.ok blocktemp =>
      match getFloatField status ['l'] with
      | Except.error e => Except.error e
      | Except.ok lidtemp =>
        match getIntField status ['e'] 0 with
        | Except.error e => Except.error e
        | Except.ok elapsedsecs =>
          match getIntField status ['r'] 0 with
          | Except.error e => Except.error e
          | Except.ok secsleft =>
            match getIntField status ['c'] 0 with
            | Except.error e => Except.error e
            | Except.ok cycle =>
              match getIntField status ['d'] (-1) with
              | Except.error e => Except.error e
              | Except.ok nonce =>
                if nonce = -1 then Except.error (PyErr.ioError nonceMissingMsg)
                else
                  let minsleft := Int.fdiv secsleft 60
                  let hoursleft := Int.fdiv minsleft 60
                  let extramins := minsleft - hoursleft * 60
                  let extrasecs := secsleft - minsleft * 60
                  Except.ok
                    { state := getStrField status ['s'],
                      job := getStrField status ['t'],
                      blocktemp := blocktemp, lidtemp := lidtemp,
                      elapsedsecs := elapsedsecs, secsleft := secsleft,
                      currentstep := getStrField status ['p'],
                      cycle := cycle, program := getStrField status ['n'],
                      nonce := nonce, minsleft := minsleft, hoursleft := hoursleft,
                      timeleft := intRepr hoursleft ++ ':' ::
                        (intRepr extramins ++ ':' :: intRepr extrasecs) }

/-- Python 3 runtime values relevant to `readstatus`: text strings and byte
strings are distinct types, and mixing them in `split` raises `TypeError`. -/
inductive PyVal where
  | str (s : PyStr)
  | bytes (b : PyBytes)
deriving DecidableEq

/-- Dynamically-typed `value.split(sep)` for the one-element separators used
on line 193: splitting text with a text separator and bytes with a bytes
separator both work, but `bytes.split(str)` — the combination `readstatus`
actually performs — raises `TypeError`. -/
def pySplitDyn : PyVal → PyVal → Except PyErr (List PyVal)
  | PyVal.str s, PyVal.str [c] => Except.ok ((pySplit1 c s).map PyVal.str)
  | PyVal.bytes b, PyVal.bytes [c] => Except.ok ((pySplit1 c b).map PyVal.bytes)
  | PyVal.str _, PyVal.str _ => Except.error PyErr.valueError
  | PyVal.bytes _, PyVal.bytes _ => Except.error PyErr.valueError
  | _, _ => Except.error PyErr.typeError

/-- Byte values read as characters, for the decode the source intends to run
on the payload. -/
def bytesToStr (b : PyBytes) : PyStr :=
  b.map Char.ofNat

/-- `OpenPCR.readstatus` (line 189) as a function of the raw `STATUS.TXT`
content: `statustxt = self.ncc()` yields trimmed bytes, and
`statustxt.split("&")` then splits bytes with a `str` separator.  In
Python 3 that raises `TypeError`, so the `ok` branch — filled in with the
decode that lines 193-214 perform on the payload read as text — is
unreachable. -/
def readstatus (fileContent : PyBytes) : Except PyErr StatusRecord :=
  match pySplitDyn (PyVal.bytes (ncc_trim fileContent)) (PyVal.str ['&']) with
  | Except.error e => Except.error e
  | Except.ok _chunks => decode_status (bytesToStr (ncc_trim fileContent))

/-- The new-nonce computation of `OpenPCR.sendprogram` (line 112):
`CurrentNonce + 1 if CurrentNonce < 100 else 1`. -/
def newNonce (current : Int) : Int :=
  if current < 100 then current + 1 else 1

/-- The nonce-scrubbing `for` loop of `sendprogram` (lines 116-120) with
Python iterator semantics: an internal index advances once per iteration
while the body may `del` the first list element equal to the current item, so
a deletion makes the iterator skip the following element.  `item[0]` raises
`IndexError` on an empty chunk.  The fuel is the initial list length, which
bounds the number of iterations (the index grows by one per iteration and
the list never grows). -/
def nonceScrubAux : Nat → Nat → List PyStr → Except PyErr (List PyStr)
  | 0, _, lst => Except.ok lst
  | fuel + 1, i, lst =>
    if h : i < lst.length then
      match lst.get ⟨i, h⟩ with
      | [] => Except.error PyErr.indexError
      | c :: _ =>
        if c = 'd' then
          nonceScrubAux fuel (i + 1) (pyDel (List.indexOf (lst.get ⟨i, h⟩) lst) lst)
        else nonceScrubAux fuel (i + 1) lst
    else Except.ok lst

/-- The nonce-scrubbing loop started at index 0 with sufficient fuel. -/
def nonceScrub (lst : List PyStr) : Except PyErr (List PyStr) :=
  nonceScrubAux lst.length 0 lst

/-- The pure assembly performed by `sendprogram` between reading the current
nonce and writing to the device (lines 112-123): compute the new nonce, split
the program on `&`, scrub any chunk whose first character is `d`, insert the
new `d=<nonce>` chunk at index 1, and reassemble.  The result is exactly the
string handed to `_sendprogram`, i.e. written to `CONTROL.TXT`; no length or
structural validation happens anywhere on this path. -/
def sendAssemble (program : PyStr) (currentNonce : Int) : Except PyErr PyStr :=
  let nonceCMD : PyStr := 'd' :: '=' :: intRepr (newNonce currentNonce)
  match nonceScrub (pySplit1 '&' program) with
  | Except.error e => Except.error e
  | Except.ok scrubbed => Except.ok (joinWith ['&'] (pyInsert 1 nonceCMD scrubbed))

/-- `OpenPCR.sendprogram` (line 106) as a function of the program string and
the raw `STATUS.TXT` content, up to the device write: it first calls
`readstatus` to obtain the current nonce and only then assembles and writes.
The returned string is what would be written to `CONTROL.TXT`. -/
def sendprogram (program : PyStr) (statusFileContent : PyBytes) : Except PyErr PyStr :=
  match readstatus statusFileContent with
  | Except.error e => Except.error e
  | Except.ok status => sendAssemble program status.nonce

/-- Modelled from the spec: the derived `active` flag, referenced by the CLI
(`openpycr.py` uses `device.active` in its logging loop) but defined nowhere
in the sources under `src/`.  Per the spec it is true unless the state is one
of the terminal labels `Complete` or `Inactive`. -/
def activeFlag (state : PyStr) : Bool :=
  !(state == ("Complete".toList) || state == ("Inactive".toList))

/-- A chunk of the status payload that is not a well-formed nonce field: it
does not split on `=` into exactly the key `d` and a value.  A payload all of
whose `&`-chunks satisfy this contains no `d=` field. -/
def nonNonceChunk (chunk : PyStr) : Bool :=
  match pySplit1 '=' chunk with
  | [k, _] => !(k == ['d'])
  | _ => true

/-!
Concrete inputs taken from the claims.
-/

/-- The end-to-end example program of the spec. -/
def progC1 : PyStr :=
  ("Title: CCR5\nLid: 95\n\nx1\n    300s @ 95C Initial Burn\nx35\n    30s @ 95 Denature\n    30s @ 68 Annealing\n    30s @ 72 Extension".toList)

/-- A program whose body is a single solitary (top-level) step line. -/
def progC2 : PyStr := ("Title: T\nLid: 95\n\n30s @ 95 Hold".toList)

/-- An encoded program of length 278, beyond the documented 252-character
device limit. -/
def progC3 : PyStr :=
  ("s=ACGTC&l=95&c=start&n=".toList) ++ List.replicate 240 'T' ++ ("&p=(1[30|95|X])".toList)

/-- What the send path assembles from `progC3` at current nonce 1: the same
oversized program with `d=2` spliced in after the signature field. -/
def assembledC3 : PyStr :=
  ("s=ACGTC&d=2&l=95&c=start&n=".toList) ++ List.replicate 240 'T' ++ ("&p=(1[30|95|X])".toList)

/-- A program whose step label contains the reserved character `&`. -/
def progC8 : PyStr := ("Title: T\nLid: 95\n\nx2\n    30s @ 95 A&B".toList)

/-- A program with a whitespace-only line inside the body. -/
def progC10 : PyStr := ("Title: T\nLid: 95\n\nx2\n    30s @ 95 A\n   \n10s @ 50 B".toList)

/-- The status payload of the spec's NUL-padding example. -/
def statusPayloadC7 : PyStr :=
  ("s=Complete&t=idle&b=25&l=25&e=100&r=0&p=Done&c=5&n=Test&d=7".toList)

/-- The same payload as raw `STATUS.TXT` bytes, NUL-padded. -/
def statusBytesC7 : PyBytes := statusPayloadC7.map Char.toNat ++ [0, 0, 0]

/-!
Helper lemmas.
-/

theorem pyLStrip_spaces (s : PyStr) (h : s.all (fun c => c == ' ') = true) :
    pyLStrip (fun c => c == ' ') s = [] := by
  induction s with
  | nil => rfl
  | cons c cs ih =>
    simp only [List.all_cons, Bool.and_eq_true] at h
    simp only [pyLStrip, h.1, if_true]
    exact ih h.2

theorem mapExcept_ok_mem {α β ε : Type} {f : α → Except ε β} :
    ∀ {l : List α} {ys : List β}, mapExcept f l = Except.ok ys →
      ∀ y ∈ ys, ∃ x ∈ l, f x = Except.ok y := by
  intro l
  induction l with
  | nil =>
    intro ys h y hy
    simp only [mapExcept, Except.ok.injEq] at h
    subst h
    simp at hy
  | cons x xs ih =>
    intro ys h y hy
    simp only [mapExcept] at h
    cases hfx : f x with
    | error e => rw [hfx] at h; simp at h
    | ok b =>
      rw [hfx] at h
      cases hrest : mapExcept f xs with
      | error e => rw [hrest] at h; simp at h
      | ok bs =>
        rw [hrest] at h
        simp only [Except.ok.injEq] at h
        subst h
        rcases List.mem_cons.mp hy with rfl | hmem
        · exact ⟨x, List.mem_cons_self x xs, hfx⟩
        · obtain ⟨x2, hx2, hfx2⟩ := ih hrest y hmem
          exact ⟨x2, List.mem_cons_of_mem x hx2, hfx2⟩

theorem dGet_none {pairs : List (PyStr × PyStr)} {k : PyStr}
    (h : ∀ p ∈ pairs, (p.1 == k) = false) : dGet pairs k = none := by
  unfold dGet
  have hf : pairs.reverse.find? (fun p => p.1 == k) = none := by
    rw [List.find?_eq_none]
    intro p hp
    simp [h p (List.mem_reverse.mp hp)]
  rw [hf]

theorem decode_status_no_nonce (payload : PyStr)
    (h : (pySplit1 '&' payload).all nonNonceChunk = true) :
    isOkE (decode_status payload) = false := by
  unfold decode_status
  split
  · rfl
  next status hm =>
    have hd : dGet status ['d'] = none := by
      apply dGet_none
      intro p hp
      obtain ⟨x, hx, hfx⟩ := mapExcept_ok_mem hm p hp
      have hall := (List.all_eq_true.mp h) x hx
      unfold splitPair at hfx
      unfold nonNonceChunk at hall
      split at hfx
      case h_1 k v heq =>
        rw [heq] at hall
        cases hfx
        simpa using hall
      case h_2 => cases hfx
    split
    · rfl
    next bv hb =>
      split
      · rfl
      next lv hl =>
        split
        · rfl
        next ev he =>
          split
          · rfl
          next rv hr =>
            split
            · rfl
            next cv hc =>
              split
              · rfl
              next nonce hq =>
                have hdint : getIntField status ['d'] (-1) = Except.ok (-1) := by
                  simp [getIntField, hd]
                rw [hdint] at hq
                injection hq with h2
                subst h2
                rfl

theorem pyDel_subset (j : Nat) (l : List α) : ∀ x ∈ pyDel j l, x ∈ l := by
  intro x hx
  unfold pyDel at hx
  rcases List.mem_append.mp hx with h1 | h2
  · exact List.take_subset _ _ h1
  · exact List.drop_subset _ _ h2

theorem nonceScrubAux_ok : ∀ (fuel i : Nat) (lst : List PyStr),
    (∀ c ∈ lst, c ≠ []) → isOkE (nonceScrubAux fuel i lst) = true := by
  intro fuel
  induction fuel with
  | zero => intro i lst _; rfl
  | succ n ih =>
    intro i lst h
    unfold nonceScrubAux
    by_cases hi : i < lst.length
    · simp only [hi, dif_pos]
      cases hget : lst.get ⟨i, hi⟩ with
      | nil => exact absurd hget (h _ (lst.get_mem _ _))
      | cons c cs =>
        by_cases hc : c = 'd'
        · simp only [hc, if_pos]
          exact ih _ _ (fun x hx => h x (pyDel_subset _ _ x hx))
        · simp only [hc, if_neg]
          exact ih _ _ h
    · simp only [hi, dif_neg]
      rfl

theorem sendAssemble_never_rejects (p : PyStr) (n : Int)
    (h : (pySplit1 '&' p).all (fun c => !c.isEmpty) = true) :
    isOkE (sendAssemble p n) = true := by
  unfold sendAssemble nonceScrub
  have hne : ∀ c ∈ pySplit1 '&' p, c ≠ [] := by
    intro c hc
    have hcc := (List.all_eq_true.mp h) c hc
    simpa using hcc
  have hok := nonceScrubAux_ok (pySplit1 '&' p).length 0 (pySplit1 '&' p) hne
  cases hs : nonceScrubAux (pySplit1 '&' p).length 0 (pySplit1 '&' p) with
  | error e => rw [hs] at hok; simp [isOkE] at hok
  | ok out => rfl

/-!
The claims.
-/

/-- Claim C1: the end-to-end example program (headers `Title: CCR5`,
`Lid: 95`; body `x1` with one indented step and `x35` with three) compiles
to the cycle sequence `[(reps=1, [300|95|Initial Burn]), (reps=35,
[30|95|Denature][30|68|Annealing][30|72|Extension])]`, and to the encoded
string with the fixed signature field first, then `l=95`, the start command,
title `CCR5`, and the two parenthesised cycle groups in document order. -/
theorem C1_end_to_end_compile :
    parse_program_core progC1 = Except.ok
      { cycles :=
          [{ reps := RepsVal.int 1,
             steps := [{ seconds := 300, temperature := 95, title := "Initial Burn".toList }] },
           { reps := RepsVal.int 35,
             steps := [{ seconds := 30, temperature := 95, title := "Denature".toList },
                       { seconds := 30, temperature := 68, title := "Annealing".toList },
                       { seconds := 30, temperature := 72, title := "Extension".toList }] }],
        title := "CCR5".toList, lid := 95 }
    ∧ parse_program progC1 = Except.ok
        ("s=ACGTC&l=95&c=start&n=CCR5&p=(1[300|95|Initial Burn])(35[30|95|Denature][30|68|Annealing][30|72|Extension])".toList) := by
  constructor <;> decide

/-- Claim C2, as the code actually behaves: a solitary top-level step line is
compiled by `cycles.append(PCRCycle(parse_step_line(line)))`, which passes
the step as the repetition count and leaves the step tuple empty, so the
encoding is `([30|95|Hold])` — the `1` repeat count the claim (and the
surrounding comments of the source) promise is missing. -/
theorem C2_solitary_step_encoding :
    parse_program progC2 = Except.ok ("s=ACGTC&l=95&c=start&n=T&p=([30|95|Hold])".toList)
    ∧ parse_program_core progC2 = Except.ok
        { cycles := [{ reps := RepsVal.step { seconds := 30, temperature := 95, title := "Hold".toList },
                       steps := [] }],
          title := "T".toList, lid := 95 } := by
  constructor <;> decide

/-- Counterexample to claim C3: a 278-character encoded program is not
rejected by any validation — the send path assembles it with the new nonce
and hands it on towards the device write. -/
theorem C3_oversize_not_rejected :
    252 < progC3.length ∧ sendAssemble progC3 1 = Except.ok assembledC3 := by
  constructor <;> decide

/-- Claim C3 as amended: no length validation exists anywhere on the send
path — the nonce-insertion assembly succeeds for every program with
non-empty `&`-chunks, regardless of length; and in the current code no
program (of any length) reaches the write at all, because `sendprogram`
first calls `readstatus`, which always raises a `TypeError`. -/
theorem C3_no_length_validation :
    (∀ (p : PyStr) (n : Int), (pySplit1 '&' p).all (fun c => !c.isEmpty) = true →
      isOkE (sendAssemble p n) = true)
    ∧ (∀ (p : PyStr) (content : PyBytes), sendprogram p content = Except.error PyErr.typeError) :=
  ⟨sendAssemble_never_rejects, fun _ _ => rfl⟩

/-- Witness for `C3_no_length_validation` at the concrete oversized program
and nonce 99. -/
theorem C3_no_length_validation_witness :
    ((pySplit1 '&' progC3).all (fun c => !c.isEmpty) = true)
    ∧ isOkE (sendAssemble progC3 99) = true :=
  ⟨by decide, C3_no_length_validation.1 progC3 99 (by decide)⟩

/-- Claim C4, as the code actually behaves: a step line without a label,
`30s @ 95C`, makes `parse_step_line` raise (`rest.split(None, 1)` yields one
piece and the two-variable unpacking fails with `ValueError`), even though
the function docstring says the description can be empty; with a label the
same line parses fine. -/
theorem C4_missing_label_not_optional :
    parse_step_line ("30s @ 95C".toList) = Except.error PyErr.valueError
    ∧ parse_step_line ("30s @ 95C Label".toList) =
        Except.ok { seconds := 30, temperature := 95, title := "Label".toList } := by
  constructor <;> decide

/-- Claim C5: the nonce computed when sending equals `(current % 100) + 1`
for every current nonce in `[1, 100]`, hence stays in `[1, 100]`; in
particular `newNonce 100 = 1` and `newNonce 5 = 6`. -/
theorem C5_nonce_wraparound :
    (∀ n : Int, 1 ≤ n → n ≤ 100 →
      (newNonce n = n % 100 + 1 ∧ 1 ≤ newNonce n ∧ newNonce n ≤ 100))
    ∧ newNonce 100 = 1 ∧ newNonce 5 = 6 := by
  refine ⟨?_, by decide, by decide⟩
  intro n h1 h2
  unfold newNonce
  split <;> omega

/-- Witness for `C5_nonce_wraparound` at the wrap point 100. -/
theorem C5_nonce_wraparound_witness :
    newNonce 100 = 100 % 100 + 1 ∧ 1 ≤ newNonce 100 ∧ newNonce 100 ≤ 100 :=
  C5_nonce_wraparound.1 100 (by decide) (by decide)

/-- Claim C6: a status payload with no `d=` field never decodes successfully
(the nonce defaults to the `-1` sentinel and the decoder raises, or a
malformed chunk already failed the pair split); every other missing
single-letter key gets its neutral default (`Unknown` for the string fields,
`0` for the numeric ones), as the decode of the payload `d=7` shows; and a
well-formed payload without `d=` fails with exactly the missing-nonce
`IOError`. -/
theorem C6_missing_nonce_fails :
    (∀ payload : PyStr, (pySplit1 '&' payload).all nonNonceChunk = true →
      isOkE (decode_status payload) = false)
    ∧ decode_status ("d=7".toList) = Except.ok
        { state := "Unknown".toList, job := "Unknown".toList, blocktemp := 0, lidtemp := 0,
          elapsedsecs := 0, secsleft := 0, currentstep := "Unknown".toList, cycle := 0,
          program := "Unknown".toList, nonce := 7, minsleft := 0, hoursleft := 0,
          timeleft := "0:0:0".toList }
    ∧ decode_status ("s=idle".toList) = Except.error (PyErr.ioError nonceMissingMsg) :=
  ⟨decode_status_no_nonce, by decide, by decide⟩

/-- Witness for `C6_missing_nonce_fails` at a concrete nonce-free payload. -/
theorem C6_missing_nonce_fails_witness :
    ((pySplit1 '&' ("s=idle&b=25".toList)).all nonNonceChunk = true)
    ∧ isOkE (decode_status ("s=idle&b=25".toList)) = false :=
  ⟨by decide, C6_missing_nonce_fails.1 _ (by decide)⟩

/-- Claim C7: the NUL-padded example payload trims at the first NUL and
decodes to `state=Complete`, `nonce=7`, `secondsLeft=0`; the derived active
flag (modelled from the spec, see `activeFlag`) is false there — and false
exactly on the terminal labels. -/
theorem C7_status_decode_complete :
    ncc_trim statusBytesC7 = statusPayloadC7.map Char.toNat
    ∧ decode_status statusPayloadC7 = Except.ok
        { state := "Complete".toList, job := "idle".toList, blocktemp := 25, lidtemp := 25,
          elapsedsecs := 100, secsleft := 0, currentstep := "Done".toList, cycle := 5,
          program := "Test".toList, nonce := 7, minsleft := 0, hoursleft := 0,
          timeleft := "0:0:0".toList }
    ∧ activeFlag ("Complete".toList) = false
    ∧ activeFlag ("Inactive".toList) = false
    ∧ activeFlag ("running".toList) = true := by
  refine ⟨by decide, by decide, by decide, by decide, by decide⟩

/-- Counterexample to claim C8: a step label containing `&` flows unescaped
into the encoded program — the output contains five ampersands, the four
field separators plus the one from the label `A&B`. -/
theorem C8_label_ampersand_not_sanitized :
    parse_program progC8 = Except.ok ("s=ACGTC&l=95&c=start&n=T&p=(2[30|95|A&B])".toList)
    ∧ List.countP (fun c => c == '&') ("s=ACGTC&l=95&c=start&n=T&p=(2[30|95|A&B])".toList) = 5 := by
  constructor <;> decide

/-- Claim C8 as amended: header values (including the title) are sanitised —
the output of `sanitizeHeader` never contains `&` or `=` — but step labels
are not sanitised at all: `parse_step_line` stores the label text verbatim,
reserved characters included. -/
theorem C8_title_sanitized_labels_not :
    (∀ v : PyStr, (sanitizeHeader v).all (fun c => !(c == '&') && !(c == '=')) = true)
    ∧ parse_step_line ("30s @ 95 A&B".toList) =
        Except.ok { seconds := 30, temperature := 95, title := "A&B".toList } := by
  constructor
  · intro v
    rw [List.all_eq_true]
    intro c hc
    unfold sanitizeHeader at hc
    simp only [List.mem_map] at hc
    obtain ⟨b, ⟨a, _, rfl⟩, rfl⟩ := hc
    by_cases h1 : a = '&'
    · subst h1; decide
    · by_cases h2 : a = '='
      · subst h2; decide
      · simp [sanitize1, sanitize2, h1, h2]
  · decide

/-- Claim C9: for every raw `STATUS.TXT` content, the composed read-and-
decode path raises: `ncc` returns a bytes payload and `readstatus` splits it
with a `str` separator, which raises `TypeError` unconditionally, so
`readstatus` never returns a status record. -/
theorem C9_readstatus_always_raises :
    ∀ content : PyBytes, readstatus content = Except.error PyErr.typeError :=
  fun _ => rfl

/-- Claim C10: `count_indent` is partial on lines with no non-space
character — on every all-space (in particular empty) line it raises
`IndexError` — and a program whose body contains a whitespace-only line
makes compilation raise that `IndexError` rather than skip the line or
report a line-numbered compile error. -/
theorem C10_blank_line_raises :
    (∀ s : PyStr, s.all (fun c => c == ' ') = true →
      count_indent s = Except.error PyErr.indexError)
    ∧ parse_program progC10 = Except.error PyErr.indexError := by
  constructor
  · intro s h
    unfold count_indent
    rw [pyLStrip_spaces s h]
  · decide

/-- Witness for `C10_blank_line_raises` at a concrete all-space line. -/
theorem C10_blank_line_raises_witness :
    (("   ".toList).all (fun c => c == ' ') = true)
    ∧ count_indent ("   ".toList) = Except.error PyErr.indexError :=
  ⟨by decide, C10_blank_line_raises.1 _ (by decide)⟩

end OpenPyCR
